import Mathlib

/-!
ShopPad weight reporter (`ESP32-We/PRODUCTION_CONFIG.h`).

A shallow embedding of the `setup()` / `loop()` sketch of the "COMPLETE EXAMPLE CODE"
section of `PRODUCTION_CONFIG.h`, together with the configuration constants of that
file.  The sketch talks to the outside world only through library calls
(`WiFi`, `scale`, `HTTPClient`, `Serial`, `delay`); every such call is recorded as an
`Action`, and what a call returns is an input of the tick.
-/

namespace ShopPad

/-- The compiled-in constants of one configuration block of the file. -/
structure Config where
  WIFI_SSID : String
  WIFI_PASSWORD : String
  SERVER_HOST : String
  SERVER_PORT : Int
  SERVER_ENDPOINT : String
  deriving DecidableEq

/-- The constants of the "COMPLETE EXAMPLE CODE" block (lines 73-80); "OPTION 1" and
"OPTION 3" carry the same values. -/
def completeExample : Config where
  WIFI_SSID := "ABC"
  WIFI_PASSWORD := "ahmad123"
  SERVER_HOST := "shoppad.yourdomain.com"
  SERVER_PORT := 443
  SERVER_ENDPOINT := "/weight"

/-- The constants of "OPTION 2: Using IP Address" (lines 36-42). -/
def option2 : Config where
  WIFI_SSID := "ABC"
  WIFI_PASSWORD := "ahmad123"
  SERVER_HOST := "138.68.137.154"
  SERVER_PORT := 5050
  SERVER_ENDPOINT := "/weight"

/-- What the sketch uses but the file does not define: the value of `WL_CONNECTED`, the two
load-cell pins, the conversion `String(value, decimalPlaces)` of a reading of type `ρ`
(a `float` in the sketch) and `HTTPClient::errorToString`.  They are parameters. -/
structure Platform (ρ : Type) where
  WL_CONNECTED : Int
  LOADCELL_DOUT_PIN : Int
  LOADCELL_SCK_PIN : Int
  floatToString : ρ → Nat → String
  errorToString : Int → String

/-- One library call made by the sketch, with its arguments (and, for the two queries whose
answer steers the control flow, the answer). -/
inductive Action where
  | serialBegin (baud : Nat)
  | scaleBegin (dout sck : Int)
  | wifiBegin (ssid password : String)
  | wifiStatus (result : Int)
  | delay (ms : Nat)
  | serialPrint (text : String)
  | serialPrintln (text : String)
  | scaleIsReady (result : Bool)
  | scaleGetUnits (times : Nat)
  | httpBegin (url : String)
  | httpAddHeader (name value : String)
  | httpPOST (payload : String)
  | httpEnd
  deriving DecidableEq

/-- What the environment answers during one pass through `loop()`: the result of
`WiFi.status()`, of `scale.is_ready()`, of `scale.get_units(10)` and of `http.POST`.
A call that the tick does not make leaves its answer unused. -/
structure TickInput (ρ : Type) where
  status : Int
  ready : Bool
  weight : ρ
  httpCode : Int

variable {ρ : Type}

/-- Line 118: `String("https://") + SERVER_HOST + ":" + SERVER_PORT + SERVER_ENDPOINT`. -/
def url (cfg : Config) : String :=
  "https://" ++ cfg.SERVER_HOST ++ ":" ++ toString cfg.SERVER_PORT ++ cfg.SERVER_ENDPOINT

/-- Line 122: `"{\"weight\":" + String(weight, 2) + "}"`. -/
def payload (P : Platform ρ) (weight : ρ) : String :=
  "\x7b\"weight\":" ++ P.floatToString weight 2 ++ "\x7d"

/-- Lines 125-129: the line written to the serial port after the POST. -/
def report (P : Platform ρ) (httpCode : Int) : String :=
  if httpCode > 0 then
    "HTTP Response: " ++ toString httpCode ++ "\n"
  else
    "HTTP Error: " ++ P.errorToString httpCode ++ "\n"

/-- Lines 106-136: one pass through `loop()`, as the list of library calls it makes. -/
def loop (P : Platform ρ) (cfg : Config) (i : TickInput ρ) : List Action :=
  (Action.wifiStatus i.status ::
    if i.status = P.WL_CONNECTED then
      Action.scaleIsReady i.ready ::
        if i.ready then
          [Action.scaleGetUnits 10,
           Action.httpBegin (url cfg),
           Action.httpAddHeader "Content-Type" "application/json",
           Action.httpPOST (payload P i.weight),
           Action.serialPrint (report P i.httpCode),
           Action.httpEnd]
        else []
    else [])
  ++ [Action.delay 10000]

/-- The Arduino runtime calls `loop()` again and again: the action lists of the successive
ticks of a run, given the inputs of each tick.  That a run threaded through the memory of
the device (`runTicks`) makes exactly these calls is `runTicks_eq_ticks`. -/
def ticks (P : Platform ρ) (cfg : Config) : List (TickInput ρ) → List (List Action)
  | [] => []
  | i :: rest => loop P cfg i :: ticks P cfg rest

/-- The trace of a run: the actions of its ticks, one tick after the other. -/
def run (P : Platform ρ) (cfg : Config) (inputs : List (TickInput ρ)) : List Action :=
  (ticks P cfg inputs).flatten

/-- Lines 91-94: the poll loop of `setup()`.  `poll k` is the answer of the call number `k`
(counted from 0) of `WiFi.status()`; `fuel` bounds the number of polls looked at.  The result
is the actions made so far and whether the loop has been left. -/
def pollLoop (P : Platform ρ) (poll : Nat → Int) : Nat → Nat → List Action × Bool
  | 0, _ => ([], false)
  | fuel + 1, k =>
    if poll k ≠ P.WL_CONNECTED then
      let r := pollLoop P poll fuel (k + 1)
      (Action.wifiStatus (poll k) :: Action.delay 500 :: Action.serialPrint "." :: r.1, r.2)
    else
      ([Action.wifiStatus (poll k)], true)

/-- Lines 83-103: `setup()`.  The second component tells whether `setup()` has returned within
`fuel` polls of the network status. -/
def setup (P : Platform ρ) (cfg : Config) (poll : Nat → Int) (fuel : Nat) : List Action × Bool :=
  let r := pollLoop P poll fuel 0
  ([Action.serialBegin 115200,
    Action.scaleBegin P.LOADCELL_DOUT_PIN P.LOADCELL_SCK_PIN,
    Action.wifiBegin cfg.WIFI_SSID cfg.WIFI_PASSWORD]
    ++ r.1 ++ (if r.2 then [Action.serialPrintln "\nWiFi connected"] else []),
   r.2)

/-- Number of POST requests in a list of actions. -/
def posts : List Action → Nat
  | [] => 0
  | Action.httpPOST _ :: t => posts t + 1
  | _ :: t => posts t

/-- The waiting times, in milliseconds, of the `delay` calls in a list of actions. -/
def delays : List Action → List Nat
  | [] => []
  | Action.delay ms :: t => ms :: delays t
  | _ :: t => delays t

/-- Modelled from the spec: the rounding inside `String(value, decimalPlaces)` ("rounded",
12.345 giving 12.35), which is not part of the repository: the magnitude of `value` times
`10 ^ decimalPlaces`, rounded to the nearest natural number, a half going up. -/
def scaled (value : ℚ) (decimalPlaces : Nat) : Nat :=
  ⌊|value| * 10 ^ decimalPlaces + 1 / 2⌋.toNat

/-- Modelled from the spec: the fractional digits written by `String(value, decimalPlaces)`
("2 fractional digits"), which is not part of the repository: the last `decimalPlaces`
decimal digits of `n`, the most significant first. -/
def fractionDigits (n decimalPlaces : Nat) : List Char :=
  (List.range decimalPlaces).reverse.map fun k => Nat.digitChar (n / 10 ^ k % 10)

/-- Modelled from the spec: the conversion `String(value, decimalPlaces)` of the Arduino
core, which the sketch calls as `String(weight, 2)` and which is not part of the repository.
The spec gives its result as "<decimal, 2 fractional digits>", "two-decimal precision",
"(rounded)", with the example 12.345 giving 12.35.  A reading stands for the rational number
that the `float` denotes; its magnitude is rounded to `decimalPlaces` decimals, a half going
up, and written as the integer part, a point and exactly `decimalPlaces` digits, after a
minus sign when the reading is negative. -/
def floatString (value : ℚ) (decimalPlaces : Nat) : String :=
  (if value < 0 then "-" else "") ++
    toString (scaled value decimalPlaces / 10 ^ decimalPlaces) ++
    (if decimalPlaces = 0 then ""
     else "." ++ String.mk (fractionDigits (scaled value decimalPlaces) decimalPlaces))

/-- A platform on which the embedding can be run: `WL_CONNECTED` is 3 as in the ESP32 WiFi
library, pins 16 and 4 stand for the load-cell pins, readings are rendered by `floatString`,
and every transport error has the same text. -/
def esp32 : Platform ℚ where
  WL_CONNECTED := 3
  LOADCELL_DOUT_PIN := 16
  LOADCELL_SCK_PIN := 4
  floatToString := floatString
  errorToString := fun _ => "connection refused"

/-- The request URL in the words of the spec: `<scheme>://<host>:<port><path>`, the scheme
being the one that the use-tls setting of the ServerTarget selects. -/
def specUrl (useTls : Bool) (host : String) (port : Int) (path : String) : String :=
  (if useTls then "https" else "http") ++ "://" ++ host ++ ":" ++ toString port ++ path

/-- The variables of the sketch: its globals (lines 73-80) and the locals that `loop()`
declares (`weight` line 109, `url` line 118, `payload` line 122, `httpCode` line 123).  The
store is what one call of `loop()` hands to the next.  A local keeps the value last written
to it, as its stack slot does; this allows more than C++ does, since a tick that used a local
before initialising it would see what an earlier tick left there. -/
structure Store (ρ : Type) where
  globals : Config
  weight : ρ
  url : String
  payload : String
  httpCode : Int

/-- Lines 106-136: one pass through `loop()` as a store transformer, statement by statement:
the store it leaves and the library calls it makes.  Each local is written by its
initialiser and read from the store afterwards. -/
def loopStep (P : Platform ρ) (i : TickInput ρ) (s : Store ρ) : Store ρ × List Action :=
  if i.status = P.WL_CONNECTED then
    if i.ready then
      let s₁ := { s with weight := i.weight }
      let s₂ := { s₁ with url := ShopPad.url s₁.globals }
      let s₃ := { s₂ with payload := ShopPad.payload P s₂.weight }
      let s₄ := { s₃ with httpCode := i.httpCode }
      (s₄,
       [Action.wifiStatus i.status, Action.scaleIsReady true, Action.scaleGetUnits 10,
        Action.httpBegin s₂.url, Action.httpAddHeader "Content-Type" "application/json",
        Action.httpPOST s₃.payload, Action.serialPrint (report P s₄.httpCode),
        Action.httpEnd, Action.delay 10000])
    else
      (s, [Action.wifiStatus i.status, Action.scaleIsReady false, Action.delay 10000])
  else
    (s, [Action.wifiStatus i.status, Action.delay 10000])

/-- The Arduino runtime calls `loop()` again and again on one memory: the ticks of a run that
starts in the store `s`, each tick starting in the store that the tick before it left. -/
def runTicks (P : Platform ρ) : Store ρ → List (TickInput ρ) → List (List Action)
  | _, [] => []
  | s, i :: rest => (loopStep P i s).2 :: runTicks P (loopStep P i s).1 rest

/-- The store in which a run that starts in `s` leaves the memory after the given ticks. -/
def storeAfter (P : Platform ρ) : Store ρ → List (TickInput ρ) → Store ρ
  | s, [] => s
  | s, i :: rest => storeAfter P (loopStep P i s).1 rest

/-! ## Lemmas shared by the theorems -/

theorem loop_of_not_connected (P : Platform ρ) (cfg : Config) (i : TickInput ρ)
    (h : i.status ≠ P.WL_CONNECTED) :
    loop P cfg i = [Action.wifiStatus i.status, Action.delay 10000] := by
  simp [loop, h]

theorem loop_of_not_ready (P : Platform ρ) (cfg : Config) (i : TickInput ρ)
    (hc : i.status = P.WL_CONNECTED) (hr : i.ready = false) :
    loop P cfg i =
      [Action.wifiStatus i.status, Action.scaleIsReady false, Action.delay 10000] := by
  simp [loop, hc, hr]

theorem loop_of_ready (P : Platform ρ) (cfg : Config) (i : TickInput ρ)
    (hc : i.status = P.WL_CONNECTED) (hr : i.ready = true) :
    loop P cfg i =
      [Action.wifiStatus i.status, Action.scaleIsReady true, Action.scaleGetUnits 10,
       Action.httpBegin (url cfg), Action.httpAddHeader "Content-Type" "application/json",
       Action.httpPOST (payload P i.weight), Action.serialPrint (report P i.httpCode),
       Action.httpEnd, Action.delay 10000] := by
  simp [loop, hc, hr]

/-- The three shapes a tick can take. -/
theorem loop_cases (P : Platform ρ) (cfg : Config) (i : TickInput ρ) :
    (i.status ≠ P.WL_CONNECTED ∧
      loop P cfg i = [Action.wifiStatus i.status, Action.delay 10000]) ∨
    (i.status = P.WL_CONNECTED ∧ i.ready = false ∧
      loop P cfg i =
        [Action.wifiStatus i.status, Action.scaleIsReady false, Action.delay 10000]) ∨
    (i.status = P.WL_CONNECTED ∧ i.ready = true ∧
      loop P cfg i =
        [Action.wifiStatus i.status, Action.scaleIsReady true, Action.scaleGetUnits 10,
         Action.httpBegin (url cfg), Action.httpAddHeader "Content-Type" "application/json",
         Action.httpPOST (payload P i.weight), Action.serialPrint (report P i.httpCode),
         Action.httpEnd, Action.delay 10000]) := by
  by_cases hc : i.status = P.WL_CONNECTED
  · cases hr : i.ready
    · exact Or.inr (Or.inl ⟨hc, rfl, loop_of_not_ready P cfg i hc hr⟩)
    · exact Or.inr (Or.inr ⟨hc, rfl, loop_of_ready P cfg i hc hr⟩)
  · exact Or.inl ⟨hc, loop_of_not_connected P cfg i hc⟩

theorem mem_ticks (P : Platform ρ) (cfg : Config) (inputs : List (TickInput ρ))
    (t : List Action) : t ∈ ticks P cfg inputs ↔ ∃ i, i ∈ inputs ∧ t = loop P cfg i := by
  induction inputs with
  | nil => simp [ticks]
  | cons j rest ih =>
    simp only [ticks, List.mem_cons, ih]
    constructor
    · rintro (h | ⟨i, hi, h⟩)
      · exact ⟨j, Or.inl rfl, h⟩
      · exact ⟨i, Or.inr hi, h⟩
    · rintro ⟨i, hi | hi, h⟩
      · exact Or.inl (hi ▸ h)
      · exact Or.inr ⟨i, hi, h⟩

/-- Where a POST sits in a tick: only at the sixth place of a connected, ready tick. -/
theorem loop_split_post (P : Platform ρ) (cfg : Config) (i : TickInput ρ)
    (pre post : List Action) (p : String)
    (h : loop P cfg i = pre ++ Action.httpPOST p :: post) :
    i.status = P.WL_CONNECTED ∧ i.ready = true ∧ p = payload P i.weight ∧
    pre = [Action.wifiStatus i.status, Action.scaleIsReady true, Action.scaleGetUnits 10,
           Action.httpBegin (url cfg), Action.httpAddHeader "Content-Type" "application/json"] ∧
    post = [Action.serialPrint (report P i.httpCode), Action.httpEnd, Action.delay 10000] := by
  rcases loop_cases P cfg i with ⟨_, e⟩ | ⟨_, _, e⟩ | ⟨hc, hr, e⟩
  · rw [e] at h
    rcases pre with _ | ⟨a, _ | ⟨b, _ | ⟨c, l⟩⟩⟩ <;> simp at h
  · rw [e] at h
    rcases pre with _ | ⟨a, _ | ⟨b, _ | ⟨c, _ | ⟨d, l⟩⟩⟩⟩ <;> simp at h
  · rw [e] at h
    rcases pre with _ | ⟨a1, _ | ⟨a2, _ | ⟨a3, _ | ⟨a4, _ | ⟨a5, _ | ⟨a6, _ | ⟨a7, _ | ⟨a8,
      _ | ⟨a9, _ | ⟨a10, l⟩⟩⟩⟩⟩⟩⟩⟩⟩⟩ <;> simp at h
    obtain ⟨h1, h2, h3, h4, h5, h6, h7⟩ := h
    subst h1 h2 h3 h4 h5 h6 h7
    exact ⟨hc, hr, rfl, by simp [hr], rfl⟩

/-! ## The tick of `loop()` -/

/-- C2: a tick whose `WiFi.status()` is not `WL_CONNECTED` makes the status check and the
closing `delay(10000)` and nothing else (no `http.begin`, no POST, no log line); and in every
run, a POST of a tick comes after a status check of that same tick that returned
`WL_CONNECTED`. -/
theorem no_post_unless_connected (P : Platform ρ) (cfg : Config) (i : TickInput ρ) :
    (i.status ≠ P.WL_CONNECTED →
      loop P cfg i = [Action.wifiStatus i.status, Action.delay 10000]) ∧
    (∀ (inputs : List (TickInput ρ)) (t pre post : List Action) (p : String),
      t ∈ ticks P cfg inputs → t = pre ++ Action.httpPOST p :: post →
        Action.wifiStatus P.WL_CONNECTED ∈ pre) := by
  refine ⟨loop_of_not_connected P cfg i, ?_⟩
  intro inputs t pre post p ht h
  obtain ⟨j, _, rfl⟩ := (mem_ticks P cfg inputs t).1 ht
  obtain ⟨hc, _, _, hpre, _⟩ := loop_split_post P cfg j pre post p h
  rw [hpre, hc]
  exact List.mem_cons_self _ _

/-- Witness of C2: a tick that finds the network disconnected (status 6), and the POST of a
connected, ready tick. -/
theorem no_post_unless_connected_witness :
    loop esp32 option2 ⟨6, true, 5, 200⟩ = [Action.wifiStatus 6, Action.delay 10000] ∧
    Action.wifiStatus esp32.WL_CONNECTED ∈
      [Action.wifiStatus 3, Action.scaleIsReady true, Action.scaleGetUnits 10,
       Action.httpBegin (url option2),
       Action.httpAddHeader "Content-Type" "application/json"] :=
  ⟨(no_post_unless_connected esp32 option2 ⟨6, true, 5, 200⟩).1 (by decide),
   (no_post_unless_connected esp32 option2 ⟨3, true, 5, 200⟩).2 [⟨3, true, 5, 200⟩]
     (loop esp32 option2 ⟨3, true, 5, 200⟩)
     [Action.wifiStatus 3, Action.scaleIsReady true, Action.scaleGetUnits 10,
      Action.httpBegin (url option2), Action.httpAddHeader "Content-Type" "application/json"]
     [Action.serialPrint (report esp32 200), Action.httpEnd, Action.delay 10000]
     (payload esp32 5) (List.Mem.head _) rfl⟩

/-- C8: a tick that finds the network connected and the sensor not ready makes the status
check, the readiness check and the closing delay and nothing else: no `get_units`, no HTTP
request, no log line. -/
theorem not_ready_tick_skipped (P : Platform ρ) (cfg : Config) (i : TickInput ρ)
    (hc : i.status = P.WL_CONNECTED) (hr : i.ready = false) :
    loop P cfg i =
      [Action.wifiStatus P.WL_CONNECTED, Action.scaleIsReady false, Action.delay 10000] := by
  rw [loop_of_not_ready P cfg i hc hr, hc]

/-- Witness of C8 on a connected tick whose sensor is not ready. -/
theorem not_ready_tick_skipped_witness :
    (3 : Int) = esp32.WL_CONNECTED ∧
    loop esp32 option2 ⟨3, false, 5, 200⟩ =
      [Action.wifiStatus esp32.WL_CONNECTED, Action.scaleIsReady false, Action.delay 10000] :=
  ⟨by decide, not_ready_tick_skipped esp32 option2 ⟨3, false, 5, 200⟩ (by decide) rfl⟩

/-- C10: a connected tick whose sensor is ready issues exactly one POST, with exactly one
`http.end()` after it, whatever the reading and whatever the POST returns; every other tick
issues no POST; so no tick issues more than one. -/
theorem one_post_per_ready_tick (P : Platform ρ) (cfg : Config) (i : TickInput ρ) :
    (i.status = P.WL_CONNECTED → i.ready = true →
      posts (loop P cfg i) = 1 ∧ (loop P cfg i).count Action.httpEnd = 1 ∧
      ∃ pre, Action.httpEnd ∉ pre ∧
        loop P cfg i = pre ++ [Action.httpPOST (payload P i.weight),
          Action.serialPrint (report P i.httpCode), Action.httpEnd, Action.delay 10000]) ∧
    (¬ (i.status = P.WL_CONNECTED ∧ i.ready = true) → posts (loop P cfg i) = 0) ∧
    posts (loop P cfg i) ≤ 1 := by
  rcases loop_cases P cfg i with ⟨hc, e⟩ | ⟨hc, hr, e⟩ | ⟨hc, hr, e⟩
  · rw [e]
    exact ⟨fun h => absurd h hc, fun _ => rfl, Nat.zero_le 1⟩
  · rw [e]
    exact ⟨fun _ h => by simp [hr] at h, fun _ => rfl, Nat.zero_le 1⟩
  · rw [e]
    refine ⟨fun _ _ => ⟨rfl, by simp [List.count_cons], ?_⟩,
      fun h => absurd ⟨hc, hr⟩ h, Nat.le_refl 1⟩
    exact ⟨[Action.wifiStatus i.status, Action.scaleIsReady true, Action.scaleGetUnits 10,
      Action.httpBegin (url cfg), Action.httpAddHeader "Content-Type" "application/json"],
      by simp, rfl⟩

/-- Witness of C10: a connected, ready tick with the reading -3/2 (below the 0-1000 range)
and a failed POST, and a disconnected tick. -/
theorem one_post_per_ready_tick_witness :
    posts (loop esp32 option2 ⟨3, true, -3 / 2, -1⟩) = 1 ∧
    (loop esp32 option2 ⟨3, true, -3 / 2, -1⟩).count Action.httpEnd = 1 ∧
    posts (loop esp32 option2 ⟨6, true, 2000, 200⟩) = 0 :=
  have h := (one_post_per_ready_tick esp32 option2 ⟨3, true, -3 / 2, -1⟩).1 (by decide) rfl
  ⟨h.1, h.2.1,
   (one_post_per_ready_tick esp32 option2 ⟨6, true, 2000, 200⟩).2.1 (by decide)⟩

/-- C5: in a connected, ready tick the POST result only chooses the log line: a positive
result (an HTTP status) gives the line "HTTP Response: <httpCode>", any other result
(a transport failure) gives "HTTP Error: <error string>", and the error line is written for
no positive result; in both cases the tick has one POST and goes on to `http.end()` and the
closing delay. -/
theorem post_result_only_logged (P : Platform ρ) (cfg : Config) (i : TickInput ρ)
    (hc : i.status = P.WL_CONNECTED) (hr : i.ready = true) :
    (∃ pre, (∀ a ∈ pre, ∀ p text, a ≠ Action.httpPOST p ∧ a ≠ Action.serialPrint text) ∧
      loop P cfg i = pre ++ [Action.httpPOST (payload P i.weight),
        Action.serialPrint (report P i.httpCode), Action.httpEnd, Action.delay 10000]) ∧
    (0 < i.httpCode → report P i.httpCode = "HTTP Response: " ++ toString i.httpCode ++ "\n") ∧
    (i.httpCode ≤ 0 →
      report P i.httpCode = "HTTP Error: " ++ P.errorToString i.httpCode ++ "\n") ∧
    (∀ e : String, report P i.httpCode = "HTTP Error: " ++ e ++ "\n" → i.httpCode ≤ 0) := by
  refine ⟨⟨[Action.wifiStatus i.status, Action.scaleIsReady true, Action.scaleGetUnits 10,
      Action.httpBegin (url cfg), Action.httpAddHeader "Content-Type" "application/json"],
      by simp, by simp [loop_of_ready P cfg i hc hr]⟩, ?_, ?_, ?_⟩
  · intro h
    simp [report, h]
  · intro h
    simp [report, not_lt.mpr h]
  · intro e he
    by_contra hpos
    rw [not_le] at hpos
    simp only [report, gt_iff_lt, hpos, if_true] at he
    have hd := congrArg String.data he
    simp only [String.data_append, List.append_assoc, List.cons_append, List.nil_append,
      List.cons.injEq] at hd
    exact absurd hd.2.2.2.2.2.1 (by decide)

/-- Witness of C5: a POST answered with HTTP status 500, and a POST that failed with -1. -/
theorem post_result_only_logged_witness :
    report esp32 500 = "HTTP Response: " ++ toString (500 : Int) ++ "\n" ∧
    report esp32 (-1) = "HTTP Error: " ++ esp32.errorToString (-1) ++ "\n" :=
  ⟨(post_result_only_logged esp32 option2 ⟨3, true, 5, 500⟩ (by decide) rfl).2.1 (by decide),
   (post_result_only_logged esp32 option2 ⟨3, true, 5, -1⟩ (by decide) rfl).2.2.1 (by decide)⟩

/-- C4, as stated, fails: with the address and port of "OPTION 2" and a ServerTarget whose
use-tls setting is off, the URL that the spec words give is `http://138.68.137.154:5050/weight`,
while the connected, ready tick opens `https://138.68.137.154:5050/weight`. -/
theorem scheme_not_selected_by_use_tls :
    Action.httpBegin
        (specUrl false option2.SERVER_HOST option2.SERVER_PORT option2.SERVER_ENDPOINT) ∉
      loop esp32 option2 ⟨3, true, 5, 200⟩ ∧
    Action.httpBegin "https://138.68.137.154:5050/weight" ∈
      loop esp32 option2 ⟨3, true, 5, 200⟩ := by
  decide

/-- C4, amended: for every host, every port in 1..65535 and every path, a connected, ready
tick opens the URL `"https://" + host + ":" + decimal(port) + path`, adds the header
`Content-Type: application/json` and POSTs the weight payload; the scheme is always `https`.
Here `decimal(port)` is the numeral of the natural number `port.toNat`, which is the port. -/
theorem request_of_ready_tick (P : Platform ρ) (ssid password host path : String) (port : Int)
    (i : TickInput ρ) (hlo : 1 ≤ port) (hhi : port ≤ 65535)
    (hc : i.status = P.WL_CONNECTED) (hr : i.ready = true) :
    loop P ⟨ssid, password, host, port, path⟩ i =
      [Action.wifiStatus P.WL_CONNECTED, Action.scaleIsReady true, Action.scaleGetUnits 10,
       Action.httpBegin ("https://" ++ host ++ ":" ++ toString port.toNat ++ path),
       Action.httpAddHeader "Content-Type" "application/json",
       Action.httpPOST ("\x7b\"weight\":" ++ P.floatToString i.weight 2 ++ "\x7d"),
       Action.serialPrint (report P i.httpCode), Action.httpEnd, Action.delay 10000] ∧
    (port.toNat : Int) = port ∧ port.toNat ≤ 65535 := by
  obtain ⟨n, rfl⟩ := Int.eq_ofNat_of_zero_le (le_trans (by decide) hlo)
  have hs : toString ((n : Nat) : Int) = toString n := rfl
  refine ⟨?_, by simp, by omega⟩
  rw [loop_of_ready P _ i hc hr, hc]
  simp only [url, payload, hs, Int.toNat_ofNat]

/-- Witness of C4 (amended) on the constants of "OPTION 2". -/
theorem request_of_ready_tick_witness :
    (1 : Int) ≤ 5050 ∧ (5050 : Int) ≤ 65535 ∧
    loop esp32 ⟨"ABC", "ahmad123", "138.68.137.154", 5050, "/weight"⟩ ⟨3, true, 5, 200⟩ =
      [Action.wifiStatus esp32.WL_CONNECTED, Action.scaleIsReady true, Action.scaleGetUnits 10,
       Action.httpBegin
         ("https://" ++ "138.68.137.154" ++ ":" ++ toString (5050 : Int).toNat ++ "/weight"),
       Action.httpAddHeader "Content-Type" "application/json",
       Action.httpPOST ("\x7b\"weight\":" ++ esp32.floatToString 5 2 ++ "\x7d"),
       Action.serialPrint (report esp32 200), Action.httpEnd, Action.delay 10000] :=
  ⟨by decide, by decide,
   (request_of_ready_tick esp32 "ABC" "ahmad123" "138.68.137.154" "/weight" 5050
     ⟨3, true, 5, 200⟩ (by decide) (by decide) (by decide) rfl).1⟩

theorem ticks_getElem_length (P : Platform ρ) (cfg : Config)
    (before after : List (TickInput ρ)) (i : TickInput ρ) :
    (ticks P cfg (before ++ i :: after))[before.length]? = some (loop P cfg i) := by
  induction before with
  | nil => simp [ticks]
  | cons j rest ih => simpa [ticks] using ih

/-- A tick reads no local before writing it and writes no global: its library calls are
those of `loop` on the globals, whatever the locals held, and it leaves the globals as they
were. -/
theorem loopStep_spec (P : Platform ρ) (i : TickInput ρ) (s : Store ρ) :
    (loopStep P i s).2 = loop P s.globals i ∧ (loopStep P i s).1.globals = s.globals := by
  by_cases hc : i.status = P.WL_CONNECTED
  · cases hr : i.ready
    · simp [loopStep, loop, hc, hr]
    · simp [loopStep, loop, hc, hr]
  · simp [loopStep, loop, hc]

/-- A run threaded through the store makes, tick by tick, the calls of `ticks`. -/
theorem runTicks_eq_ticks (P : Platform ρ) (inputs : List (TickInput ρ)) :
    ∀ s : Store ρ, runTicks P s inputs = ticks P s.globals inputs := by
  induction inputs with
  | nil => intro s; rfl
  | cons j rest ih =>
    intro s
    simp only [runTicks, ticks, ih, (loopStep_spec P j s).1, (loopStep_spec P j s).2]

/-- C6: in a run threaded through the memory of the device, the actions of tick `n` are those
of `loop()` on the inputs of tick `n`, whatever the ticks before it received and left in the
store, and whatever the locals held at the start: two runs that start with the same globals
and give tick `n` the same inputs see the same actions in tick `n`, although the stores they
reach differ (the store after a connected, ready tick holds that tick's reading and POST
result).  In particular the tick after a failed POST has one closing delay and no other, at
most one POST, and a POST in it carries that tick's own reading. -/
theorem tick_depends_on_own_inputs (P : Platform ρ) (s₁ s₂ : Store ρ)
    (before₁ before₂ after₁ after₂ : List (TickInput ρ)) (i : TickInput ρ) (n : Nat)
    (hg : s₁.globals = s₂.globals) (h₁ : before₁.length = n) (h₂ : before₂.length = n) :
    (runTicks P s₁ (before₁ ++ i :: after₁))[n]? =
      (runTicks P s₂ (before₂ ++ i :: after₂))[n]? ∧
    (runTicks P s₁ (before₁ ++ i :: after₁))[n]? = some (loop P s₁.globals i) ∧
    (loopStep P i (storeAfter P s₁ before₁)).2 = (loopStep P i (storeAfter P s₂ before₂)).2 ∧
    (i.status = P.WL_CONNECTED → i.ready = true →
      (loopStep P i (storeAfter P s₁ before₁)).1.weight = i.weight ∧
      (loopStep P i (storeAfter P s₁ before₁)).1.httpCode = i.httpCode) ∧
    delays (loop P s₁.globals i) = [10000] ∧ posts (loop P s₁.globals i) ≤ 1 ∧
    (∀ p, Action.httpPOST p ∈ loop P s₁.globals i → p = payload P i.weight) := by
  have e₁ := ticks_getElem_length P s₁.globals before₁ after₁ i
  have e₂ := ticks_getElem_length P s₂.globals before₂ after₂ i
  rw [h₁] at e₁
  rw [h₂, ← hg] at e₂
  have hst : ∀ (l : List (TickInput ρ)) (s : Store ρ), (storeAfter P s l).globals = s.globals := by
    intro l
    induction l with
    | nil => intro s; rfl
    | cons j rest ih => intro s; simp only [storeAfter, ih, (loopStep_spec P j s).2]
  refine ⟨?_, ?_, ?_, ?_, ?_⟩
  · rw [runTicks_eq_ticks, runTicks_eq_ticks, e₁, ← hg, e₂]
  · rw [runTicks_eq_ticks, e₁]
  · rw [(loopStep_spec P i _).1, (loopStep_spec P i _).1, hst, hst, hg]
  · intro hc hr
    simp [loopStep, hc, hr]
  · rcases loop_cases P s₁.globals i with ⟨_, e⟩ | ⟨_, _, e⟩ | ⟨_, _, e⟩ <;> rw [e] <;>
      refine ⟨rfl, by simp [posts], ?_⟩ <;> intro p hp <;>
      first | (simp at hp; done) | simpa using hp

/-- Witness of C6: the same inputs as second tick, once after a failed POST (result -1) in a
fresh memory and once after a tick that found the network down in a memory with stale
locals; the two runs reach tick 1 with different stores and make the same calls in it. -/
theorem tick_depends_on_own_inputs_witness :
    (runTicks esp32 ⟨option2, 0, "", "", 0⟩
        ([⟨3, true, 7, -1⟩] ++ ⟨3, true, 5, 200⟩ :: []))[1]? =
      (runTicks esp32 ⟨option2, 99, "stale", "stale", 404⟩
        ([⟨6, false, 9, 200⟩] ++ ⟨3, true, 5, 200⟩ :: [⟨3, true, 1, 404⟩]))[1]? ∧
    (storeAfter esp32 ⟨option2, 0, "", "", 0⟩ [⟨3, true, 7, -1⟩]).httpCode = -1 ∧
    (storeAfter esp32 ⟨option2, 99, "stale", "stale", 404⟩ [⟨6, false, 9, 200⟩]).httpCode = 404 ∧
    (loopStep esp32 ⟨3, true, 5, 200⟩
      (storeAfter esp32 ⟨option2, 0, "", "", 0⟩ [⟨3, true, 7, -1⟩])).1.httpCode = 200 ∧
    delays (loop esp32 option2 ⟨3, true, 5, 200⟩) = [10000] :=
  have h := tick_depends_on_own_inputs esp32 ⟨option2, 0, "", "", 0⟩
    ⟨option2, 99, "stale", "stale", 404⟩ [⟨3, true, 7, -1⟩] [⟨6, false, 9, 200⟩]
    [] [⟨3, true, 1, 404⟩] ⟨3, true, 5, 200⟩ 1 rfl rfl rfl
  ⟨h.1, by decide, by decide, (h.2.2.2.1 (by decide) rfl).2, h.2.2.2.2.1⟩

theorem run_cons (P : Platform ρ) (cfg : Config) (i : TickInput ρ)
    (rest : List (TickInput ρ)) : run P cfg (i :: rest) = loop P cfg i ++ run P cfg rest := by
  simp [run, ticks]

/-- Between two POSTs of a run lies the closing delay of the tick of the first one. -/
theorem delay_between_posts (P : Platform ρ) (cfg : Config) (inputs : List (TickInput ρ)) :
    ∀ (a mid c : List Action) (p q : String),
      run P cfg inputs = a ++ Action.httpPOST p :: (mid ++ Action.httpPOST q :: c) →
        Action.delay 10000 ∈ mid := by
  induction inputs with
  | nil =>
    intro a mid c p q h
    simp [run, ticks] at h
  | cons i rest ih =>
    intro a mid c p q h
    rw [run_cons, List.append_eq_append_iff] at h
    rcases h with ⟨a', _, h⟩ | ⟨c', hl, h⟩
    · exact ih a' mid c p q h
    · rcases c' with _ | ⟨x, ctail⟩
      · exact ih [] mid c p q (by simpa using h.symm)
      · simp only [List.cons_append, List.cons.injEq] at h
        obtain ⟨hx, h⟩ := h
        subst hx
        obtain ⟨_, _, _, _, hpost⟩ := loop_split_post P cfg i a ctail p hl
        subst hpost
        rw [List.append_eq_append_iff] at h
        rcases h with ⟨m', hm, h'⟩ | ⟨m', hm, _⟩
        · rcases m' with _ | ⟨y, mtail⟩
          · rw [List.append_nil] at hm
            rw [← hm]
            simp
          · simp only [List.cons_append, List.cons.injEq] at h'
            obtain ⟨hy, _⟩ := h'
            subst hy
            rcases mid with _ | ⟨m1, _ | ⟨m2, _ | ⟨m3, _ | ⟨m4, l⟩⟩⟩⟩ <;> simp at hm
        · rw [hm]
          simp

/-- C7: every tick, on each of its branches, ends with `delay(10000)` and has no other
delay; hence in every run two successive POSTs have a `delay(10000)` between them. -/
theorem delay_closes_every_tick (P : Platform ρ) (cfg : Config) :
    (∀ i : TickInput ρ, delays (loop P cfg i) = [10000] ∧
      ∃ pre, loop P cfg i = pre ++ [Action.delay 10000]) ∧
    (∀ (inputs : List (TickInput ρ)) (a mid c : List Action) (p q : String),
      run P cfg inputs = a ++ Action.httpPOST p :: (mid ++ Action.httpPOST q :: c) →
        Action.delay 10000 ∈ mid) := by
  refine ⟨fun i => ⟨?_, ?_⟩, delay_between_posts P cfg⟩
  · rcases loop_cases P cfg i with ⟨_, e⟩ | ⟨_, _, e⟩ | ⟨_, _, e⟩ <;> rw [e] <;> rfl
  · exact ⟨_, rfl⟩

/-- Witness of C7: a run of two connected, ready ticks, cut at its two POSTs. -/
theorem delay_closes_every_tick_witness :
    Action.delay 10000 ∈
      [Action.serialPrint (report esp32 200), Action.httpEnd, Action.delay 10000,
       Action.wifiStatus 3, Action.scaleIsReady true, Action.scaleGetUnits 10,
       Action.httpBegin (url option2),
       Action.httpAddHeader "Content-Type" "application/json"] :=
  (delay_closes_every_tick esp32 option2).2 [⟨3, true, 5, 200⟩, ⟨3, true, 7, 201⟩]
    [Action.wifiStatus 3, Action.scaleIsReady true, Action.scaleGetUnits 10,
     Action.httpBegin (url option2), Action.httpAddHeader "Content-Type" "application/json"]
    _ [Action.serialPrint (report esp32 201), Action.httpEnd, Action.delay 10000]
    (payload esp32 5) (payload esp32 7) rfl

/-! ## The poll loop of `setup()` -/

/-- The actions of the iterations number `k`, ..., `k + n - 1` of the poll loop: the status
check that fails, `delay(500)` and the printed ".". -/
theorem pollLoop_of_first_connected (P : Platform ρ) (poll : Nat → Int) :
    ∀ (n k fuel : Nat), (∀ j, j < n → poll (k + j) ≠ P.WL_CONNECTED) →
      poll (k + n) = P.WL_CONNECTED → n < fuel →
      pollLoop P poll fuel k =
        ((List.range n).flatMap (fun j =>
            [Action.wifiStatus (poll (k + j)), Action.delay 500, Action.serialPrint "."])
          ++ [Action.wifiStatus P.WL_CONNECTED], true) := by
  intro n
  induction n with
  | zero =>
    intro k fuel _ hk hf
    obtain ⟨f, rfl⟩ := Nat.exists_eq_succ_of_ne_zero (Nat.pos_iff_ne_zero.mp hf)
    have hk' : poll k = P.WL_CONNECTED := by simpa using hk
    simp [pollLoop, hk']
  | succ n ih =>
    intro k fuel hbefore hk hf
    obtain ⟨f, rfl⟩ := Nat.exists_eq_succ_of_ne_zero (Nat.pos_iff_ne_zero.mp (by omega : 0 < fuel))
    have h0 : poll k ≠ P.WL_CONNECTED := by simpa using hbefore 0 (Nat.succ_pos n)
    have hrec := ih (k + 1) f
      (fun j hj => by simpa [Nat.add_assoc, Nat.add_comm 1 j] using hbefore (j + 1) (by omega))
      (by simpa [Nat.add_assoc, Nat.add_comm 1 n] using hk) (by omega)
    simp only [pollLoop, ne_eq, h0, not_false_eq_true, if_true, hrec]
    simp [List.range_succ_eq_map, List.flatMap_map, Nat.add_assoc, Nat.add_comm 1]

theorem pollLoop_of_never_connected (P : Platform ρ) (poll : Nat → Int)
    (hnever : ∀ j, poll j ≠ P.WL_CONNECTED) :
    ∀ (fuel k : Nat),
      pollLoop P poll fuel k =
        ((List.range fuel).flatMap (fun j =>
            [Action.wifiStatus (poll (k + j)), Action.delay 500, Action.serialPrint "."]),
         false) := by
  intro fuel
  induction fuel with
  | zero => intro k; simp [pollLoop]
  | succ f ih =>
    intro k
    simp only [pollLoop, ne_eq, hnever k, not_false_eq_true, if_true, ih (k + 1)]
    simp [List.range_succ_eq_map, List.flatMap_map, Nat.add_assoc, Nat.add_comm 1]

theorem delays_append (a b : List Action) : delays (a ++ b) = delays a ++ delays b := by
  induction a with
  | nil => rfl
  | cons x t ih => cases x <;> simp [delays, ih]

theorem delays_iterations (f : Nat → Int) (l : List Nat) :
    delays (l.flatMap (fun j =>
      [Action.wifiStatus (f j), Action.delay 500, Action.serialPrint "."])) =
    List.replicate l.length 500 := by
  induction l with
  | nil => rfl
  | cons j t ih =>
    rw [List.flatMap_cons, delays_append, ih]
    rfl

/-- C9: the poll loop of `setup()` has no retry limit.  If the `k`-th poll (`k ≥ 1`) is the
first that returns `WL_CONNECTED`, then with any fuel of at least `k` polls `setup()` returns,
having made exactly `k - 1` iterations (failed status check, `delay(500)`, printed ".") and
then printed "WiFi connected".  If no poll returns `WL_CONNECTED`, then for every fuel
`setup()` has not returned, has made as many iterations as it had fuel, and has not printed
"WiFi connected". -/
theorem setup_polls_until_connected (P : Platform ρ) (cfg : Config) (poll : Nat → Int) :
    (∀ k fuel : Nat, 1 ≤ k → poll (k - 1) = P.WL_CONNECTED →
      (∀ j, j < k - 1 → poll j ≠ P.WL_CONNECTED) → k ≤ fuel →
      setup P cfg poll fuel =
        ([Action.serialBegin 115200,
          Action.scaleBegin P.LOADCELL_DOUT_PIN P.LOADCELL_SCK_PIN,
          Action.wifiBegin cfg.WIFI_SSID cfg.WIFI_PASSWORD]
          ++ (List.range (k - 1)).flatMap (fun j =>
            [Action.wifiStatus (poll j), Action.delay 500, Action.serialPrint "."])
          ++ [Action.wifiStatus P.WL_CONNECTED, Action.serialPrintln "\nWiFi connected"],
         true)) ∧
    ((∀ j, poll j ≠ P.WL_CONNECTED) → ∀ fuel : Nat,
      setup P cfg poll fuel =
        ([Action.serialBegin 115200,
          Action.scaleBegin P.LOADCELL_DOUT_PIN P.LOADCELL_SCK_PIN,
          Action.wifiBegin cfg.WIFI_SSID cfg.WIFI_PASSWORD]
          ++ (List.range fuel).flatMap (fun j =>
            [Action.wifiStatus (poll j), Action.delay 500, Action.serialPrint "."]),
         false) ∧
      Action.serialPrintln "\nWiFi connected" ∉ (setup P cfg poll fuel).1 ∧
      delays (setup P cfg poll fuel).1 = List.replicate fuel 500) := by
  constructor
  · intro k fuel hk hconn hbefore hfuel
    have h := pollLoop_of_first_connected P poll (k - 1) 0 fuel
      (fun j hj => by simpa using hbefore j hj) (by simpa using hconn) (by omega)
    simp only [setup, h]
    simp
  · intro hnever fuel
    have h := pollLoop_of_never_connected P poll hnever fuel 0
    have hs : setup P cfg poll fuel =
        ([Action.serialBegin 115200,
          Action.scaleBegin P.LOADCELL_DOUT_PIN P.LOADCELL_SCK_PIN,
          Action.wifiBegin cfg.WIFI_SSID cfg.WIFI_PASSWORD]
          ++ (List.range fuel).flatMap (fun j =>
            [Action.wifiStatus (poll j), Action.delay 500, Action.serialPrint "."]),
         false) := by
      simp only [setup, h]
      simp
    refine ⟨hs, ?_, ?_⟩
    · rw [hs]
      simp [List.mem_flatMap]
    · rw [hs]
      simp [delays_append, delays_iterations, delays]

/-- Witness of C9: a network that answers "disconnected" (6) twice and "connected" (3) at the
third poll, and a network that never connects. -/
theorem setup_polls_until_connected_witness :
    setup esp32 option2 (fun j => if j = 2 then 3 else 6) 5 =
      ([Action.serialBegin 115200, Action.scaleBegin 16 4, Action.wifiBegin "ABC" "ahmad123",
        Action.wifiStatus 6, Action.delay 500, Action.serialPrint ".",
        Action.wifiStatus 6, Action.delay 500, Action.serialPrint ".",
        Action.wifiStatus 3, Action.serialPrintln "\nWiFi connected"], true) ∧
    delays (setup esp32 option2 (fun _ => 6) 4).1 = [500, 500, 500, 500] ∧
    (setup esp32 option2 (fun _ => 6) 4).2 = false :=
  ⟨(setup_polls_until_connected esp32 option2 (fun j => if j = 2 then 3 else 6)).1 3 5
      (by decide) (by decide) (by decide) (by decide),
   ((setup_polls_until_connected esp32 option2 (fun _ => 6)).2 (fun _ => by decide) 4).2.2,
   congrArg Prod.snd
     ((setup_polls_until_connected esp32 option2 (fun _ => 6)).2 (fun _ => by decide) 4).1⟩

/-! ## The payload -/

theorem digitChar_isDigit (k : Nat) (h : k < 10) : (Nat.digitChar k).isDigit = true := by
  interval_cases k <;> decide

theorem toDigitsCore_isDigit :
    ∀ (fuel n : Nat) (ds : List Char), (∀ c ∈ ds, c.isDigit = true) →
      ∀ c ∈ Nat.toDigitsCore 10 fuel n ds, c.isDigit = true := by
  intro fuel
  induction fuel with
  | zero => intro n ds h; simpa [Nat.toDigitsCore] using h
  | succ f ih =>
    intro n ds h
    have hcons : ∀ c ∈ Nat.digitChar (n % 10) :: ds, c.isDigit = true := by
      intro c hc
      rcases List.mem_cons.1 hc with rfl | hc
      · exact digitChar_isDigit _ (Nat.mod_lt _ (by decide))
      · exact h c hc
    simp only [Nat.toDigitsCore]
    split
    · exact hcons
    · exact ih _ _ hcons

theorem toDigitsCore_ne_nil :
    ∀ (fuel n : Nat) (ds : List Char), ds ≠ [] → Nat.toDigitsCore 10 fuel n ds ≠ [] := by
  intro fuel
  induction fuel with
  | zero => intro n ds h; simpa [Nat.toDigitsCore] using h
  | succ f ih =>
    intro n ds _
    simp only [Nat.toDigitsCore]
    split
    · simp
    · exact ih _ _ (by simp)

/-- The decimal numeral of a natural number is a non-empty string of digits. -/
theorem toString_nat_digits (n : Nat) :
    (toString n).data ≠ [] ∧ ∀ c ∈ (toString n).data, c.isDigit = true := by
  have hd : (toString n).data = Nat.toDigitsCore 10 (n + 1) n [] := rfl
  rw [hd]
  constructor
  · simp only [Nat.toDigitsCore]
    split
    · simp
    · exact toDigitsCore_ne_nil _ _ _ (by simp)
  · exact toDigitsCore_isDigit _ _ _ (by simp)

/-- For a reading that is not negative, `scaled value 2` is `value * 100` rounded to the
nearest natural number, a half going up. -/
theorem scaled_two_bounds (w : ℚ) (h : 0 ≤ w) :
    (scaled w 2 : ℚ) ≤ w * 100 + 1 / 2 ∧ w * 100 + 1 / 2 < (scaled w 2 : ℚ) + 1 := by
  have hpos : (0 : ℚ) ≤ w * 100 + 1 / 2 := by linarith
  have hfl : (0 : ℤ) ≤ ⌊w * 100 + 1 / 2⌋ := Int.floor_nonneg.2 hpos
  have hs : ((scaled w 2 : ℕ) : ℤ) = ⌊w * 100 + 1 / 2⌋ := by
    unfold scaled
    rw [abs_of_nonneg h, Int.toNat_of_nonneg (by norm_num; exact hfl)]
    norm_num
  have hq : ((scaled w 2 : ℕ) : ℚ) = ((⌊w * 100 + 1 / 2⌋ : ℤ) : ℚ) := by
    rw [← hs]
    simp
  rw [hq]
  exact ⟨Int.floor_le _, Int.lt_floor_add_one _⟩

theorem floatString_two (w : ℚ) (h : 0 ≤ w) :
    floatString w 2 =
      toString (scaled w 2 / 100) ++ "." ++
        String.mk [Nat.digitChar (scaled w 2 / 10 % 10), Nat.digitChar (scaled w 2 % 10)] := by
  have e : fractionDigits (scaled w 2) 2 =
      [Nat.digitChar (scaled w 2 / 10 % 10), Nat.digitChar (scaled w 2 % 10)] := by
    simp [fractionDigits, List.range_succ]
  simp only [floatString, not_lt.mpr h, if_false, e]
  simp [String.ext_iff]

/-- C1: for every reading `w` in [0, 1000] the payload is `{"weight":`, then the decimal
numeral of the integer part of `w` rounded to hundredths (a non-empty string of digits), a
point, exactly two digits, and the closing brace.  Here `n` is `100 * w` rounded to the
nearest natural number. -/
theorem payload_two_fraction_digits (w : ℚ) (h0 : 0 ≤ w) (h1 : w ≤ 1000) :
    ∃ n : Nat, (n : ℚ) ≤ w * 100 + 1 / 2 ∧ w * 100 + 1 / 2 < (n : ℚ) + 1 ∧ n ≤ 100000 ∧
      payload esp32 w =
        "\x7b\"weight\":" ++ toString (n / 100) ++ "." ++
          String.mk [Nat.digitChar (n / 10 % 10), Nat.digitChar (n % 10)] ++ "\x7d" ∧
      (toString (n / 100)).data ≠ [] ∧
      (∀ c ∈ (toString (n / 100)).data, c.isDigit = true) ∧
      (Nat.digitChar (n / 10 % 10)).isDigit = true ∧ (Nat.digitChar (n % 10)).isDigit = true := by
  obtain ⟨hlo, hhi⟩ := scaled_two_bounds w h0
  refine ⟨scaled w 2, hlo, hhi, ?_, ?_, (toString_nat_digits _).1, (toString_nat_digits _).2,
    digitChar_isDigit _ (Nat.mod_lt _ (by decide)), digitChar_isDigit _ (Nat.mod_lt _ (by decide))⟩
  · have hq : (scaled w 2 : ℚ) ≤ 100000 + 1 / 2 := by linarith
    have hq' : (scaled w 2 : ℚ) < ((100001 : ℕ) : ℚ) := by
      push_cast
      linarith
    have := Nat.cast_lt.1 hq'
    omega
  · show "\x7b\"weight\":" ++ floatString w 2 ++ "\x7d" = _
    rw [floatString_two w h0]
    simp [String.ext_iff]

/-- Witness of C1 at the reading 7/8 kg. -/
theorem payload_two_fraction_digits_witness :
    (0 : ℚ) ≤ 7 / 8 ∧ (7 / 8 : ℚ) ≤ 1000 ∧
    ∃ n : Nat, (n : ℚ) ≤ 7 / 8 * 100 + 1 / 2 ∧ (7 / 8 : ℚ) * 100 + 1 / 2 < (n : ℚ) + 1 ∧
      n ≤ 100000 ∧
      payload esp32 (7 / 8) =
        "\x7b\"weight\":" ++ toString (n / 100) ++ "." ++
          String.mk [Nat.digitChar (n / 10 % 10), Nat.digitChar (n % 10)] ++ "\x7d" ∧
      (toString (n / 100)).data ≠ [] ∧
      (∀ c ∈ (toString (n / 100)).data, c.isDigit = true) ∧
      (Nat.digitChar (n / 10 % 10)).isDigit = true ∧ (Nat.digitChar (n % 10)).isDigit = true :=
  ⟨by norm_num, by norm_num, payload_two_fraction_digits (7 / 8) (by norm_num) (by norm_num)⟩

theorem scaled_reference_reading : scaled (12345 / 1000) 2 = 1235 := by
  have hfl : ⌊|(12345 / 1000 : ℚ)| * 10 ^ 2 + 1 / 2⌋ = 1235 := by
    rw [abs_of_nonneg (by norm_num), Int.floor_eq_iff]
    norm_num
  unfold scaled
  rw [hfl]
  rfl

theorem floatString_reference_reading : floatString (12345 / 1000) 2 = "12.35" := by
  rw [floatString_two _ (by norm_num), scaled_reference_reading]
  decide

/-- C3, as stated, fails: with the constants of the complete example, the connected, ready
tick with the reading 12.345 does not open `https://shoppad.example.com:443/weight`; it opens
`https://shoppad.yourdomain.com:443/weight`. -/
theorem reference_url_is_not_example_com :
    Action.httpBegin "https://shoppad.example.com:443/weight" ∉
      loop esp32 completeExample ⟨3, true, 12345 / 1000, 200⟩ ∧
    Action.httpBegin "https://shoppad.yourdomain.com:443/weight" ∈
      loop esp32 completeExample ⟨3, true, 12345 / 1000, 200⟩ := by
  decide

/-- C3, amended: with the constants of the complete example, a connected tick whose sensor is
ready and returns the reading 12.345 kg POSTs the body `{"weight":12.35}` to the URL
`https://shoppad.yourdomain.com:443/weight`, whatever the POST returns. -/
theorem reference_tick_request (httpCode : Int) :
    loop esp32 completeExample ⟨esp32.WL_CONNECTED, true, 12345 / 1000, httpCode⟩ =
      [Action.wifiStatus 3, Action.scaleIsReady true, Action.scaleGetUnits 10,
       Action.httpBegin "https://shoppad.yourdomain.com:443/weight",
       Action.httpAddHeader "Content-Type" "application/json",
       Action.httpPOST "\x7b\"weight\":12.35\x7d",
       Action.serialPrint (report esp32 httpCode), Action.httpEnd, Action.delay 10000] := by
  have hp : payload esp32 (12345 / 1000) = "\x7b\"weight\":12.35\x7d" := by
    show "\x7b\"weight\":" ++ floatString (12345 / 1000) 2 ++ "\x7d" = _
    rw [floatString_reference_reading]
    decide
  have hu : url completeExample = "https://shoppad.yourdomain.com:443/weight" := by decide
  rw [loop_of_ready esp32 completeExample _ rfl rfl, hp, hu]
  rfl

end ShopPad
